import Mathlib

/-!
Verification development for the ALSA audio output backend
(`src/plugins/alsa/alsaoutput.cpp` of the fooyin music player).

The C++ code drives an external ALSA PCM device through the `snd_pcm_*`
API.  The embedding keeps the hardware abstract: a `PcmLib H` bundles the
ALSA entry points the backend calls, acting on an arbitrary hardware-state
type `H`.  The backend's own logic (the recovery state machine, the
init/uninit lifecycle, the write path, device enumeration) is translated
function by function from the source.  A small concrete reference model
`RefHw`/`refLib` instantiates the abstract interface for concrete
evaluations.
-/

/-- Sample formats of `Fooyin::SampleFormat` (audioformat.h, not under
`src/`). Modelled from the spec: "sampleFormat: enum {U8,S16,S24,S32,Float,Unknown}". -/
inductive SampleFormat
  | u8
  | s16
  | s24
  | s32
  | float
  | unknown
deriving DecidableEq

/-- ALSA PCM sample-format constants used by the backend; only the codes'
signs matter (SND_PCM_FORMAT_UNKNOWN = -1, the rest are non-negative). -/
inductive SndPcmFormat
  | u8
  | s16
  | s32
  | float
  | unknown
deriving DecidableEq

/-- Numeric value of the ALSA format constant (alsa/pcm.h). -/
def formatCode : SndPcmFormat → Int
  | .u8 => 1
  | .s16 => 2
  | .s32 => 10
  | .float => 14
  | .unknown => -1

/-- The `findAlsaFormat` (alsaoutput.cpp:67): maps the engine sample format to
the ALSA constant; S24 has no distinct wire format and is packed into S32. -/
def findAlsaFormat : SampleFormat → SndPcmFormat
  | .u8 => .u8
  | .s16 => .s16
  | .s24 => .s32
  | .s32 => .s32
  | .float => .float
  | .unknown => .unknown

/-- The `AudioFormat` (audioformat.h, not under `src/`). Modelled from the spec:
"immutable descriptor {sampleFormat, sampleRate, channelCount}". -/
structure AudioFormat where
  sampleFormat : SampleFormat
  sampleRate : Nat
  channelCount : Nat
deriving DecidableEq

/-- The `AudioBuffer` (audiobuffer.h, not under `src/`). Modelled from the spec:
"an ordered sequence of interleaved PCM sample frames"; samples are numbers
(rationals stand in for the machine representation) and the frame count is
the quantity `write` passes to the hardware. -/
structure AudioBuffer where
  frameCount : Nat
  samples : List ℚ
deriving DecidableEq

/-- The `AudioBuffer::scale` (audiobuffer.cpp, not under `src/`). Modelled from
the spec: "a per-buffer linear gain (volume) scalar applied at write time",
"scales sample amplitude by v".  Returns a new buffer; the argument is not
mutated (value semantics). -/
def AudioBuffer.scale (v : ℚ) (b : AudioBuffer) : AudioBuffer :=
  { b with samples := b.samples.map (fun s => v * s) }

/-- The `OutputState` (audiooutput.h, not under `src/`). Modelled from the spec:
"a snapshot {delaySeconds, freeSamples, queuedSamples}". -/
structure OutputState where
  delay : ℚ
  freeSamples : Int
  queuedSamples : Int
deriving DecidableEq

/-- Default-constructed `OutputState`. Modelled from the spec: all fields
start at zero before `recoverState` fills them. -/
def outputStateDefault : OutputState :=
  { delay := 0, freeSamples := 0, queuedSamples := 0 }

/-- The `OutputDevice` (audiooutput.h, not under `src/`). Modelled from the
spec: "{name: opaque identifier string, description: human-readable string}". -/
structure OutputDevice where
  name : String
  desc : String
deriving DecidableEq

/-- ALSA PCM states (alsa/pcm.h `snd_pcm_state_t`); `private1` stands for
SND_PCM_STATE_PRIVATE1, reachable only through the `default:` switch label. -/
inductive PcmSt
  | opened
  | setup
  | prepared
  | running
  | xrun
  | draining
  | paused
  | suspended
  | disconnected
  | private1
deriving DecidableEq

/-- errno constant EPIPE (broken pipe / underrun). -/
def EPIPE : Int := 32

/-- errno constant EINTR (interrupted call). -/
def EINTR : Int := 4

/-- errno constant ESTRPIPE (stream error / suspend). -/
def ESTRPIPE : Int := 86

/-- errno constant EAGAIN. -/
def EAGAIN : Int := 11

/-- errno constant ENOSYS. -/
def ENOSYS : Int := 38

/-- The `checkError` (alsaoutput.cpp:27): an ALSA return code signals an error
iff it is negative (the log message is dropped in the model). -/
def checkErr (e : Int) : Bool := decide (e < 0)

/-- The transient status-query fault codes tested at alsaoutput.cpp:398:
`err == -EPIPE || err == -EINTR || err == -ESTRPIPE`. -/
def transientStatusErr (e : Int) : Bool :=
  e == -EPIPE || e == -EINTR || e == -ESTRPIPE

/-- Contents of a `snd_pcm_status_t` object as the backend reads it
(state, available frames, delay frames).  `snd_pcm_status_alloca` zeroes
the object, so the initial value is state 0 = OPEN with zero counters. -/
structure StatusObj where
  st : PcmSt
  avail : Int
  delay : Int
deriving DecidableEq

/-- The zero-initialised status object produced by `snd_pcm_status_alloca`. -/
def statusObj0 : StatusObj := { st := .opened, avail := 0, delay := 0 }

/-- Result of an ALSA call that returns an error code and may advance the
hardware state. -/
structure OpRes (H : Type) where
  err : Int
  hw : H

/-- Result of `snd_pcm_status`: error code, the status-object contents the
call would write on success, and the hardware state afterwards. -/
structure StatusRes (H : Type) where
  err : Int
  obj : StatusObj
  hw : H

/-- The ALSA PCM entry points the backend calls, abstracted over a
hardware-state type `H`.  The real library is external to the repository;
each field stands for the `snd_pcm_*` function of the same name. -/
structure PcmLib (H : Type) where
  status : H → StatusRes H
  recover : H → Int → H
  start : H → OpRes H
  prepare : H → OpRes H
  resume : H → OpRes H
  drop : H → OpRes H
  writei : H → AudioBuffer → Nat → OpRes H
  rawState : H → PcmSt
  pause : H → Bool → OpRes H

/-- Outcome of one iteration of the `attemptRecovery` loop body
(alsaoutput.cpp:396-451).  `done = some b` means the body executed a
`return b`; `done = none` means it executed `continue`.  `usedSt` is the
`pcmst` value the iteration dispatched on (`none` on the auto-recover
`continue`, which happens before `pcmst` is assigned). -/
structure ARIter (H : Type) where
  hw : H
  sobj : StatusObj
  autoRec : Bool
  done : Option Bool
  recoverCalled : Bool
  emitted : Bool
  usedSt : Option PcmSt

/-- The state dispatch of the `attemptRecovery` loop body
(alsaoutput.cpp:410-450): the if-chain on RUNNING/PAUSED/PREPARED followed
by the switch on the remaining states, given the hardware state after the
status query, the current status-object contents and the `pcmst` value. -/
def arDispatch {H : Type} (lib : PcmLib H) (started autoRec : Bool) (hw1 : H)
    (sobj1 : StatusObj) : PcmSt → ARIter H
  | .running =>
      { hw := hw1, sobj := sobj1, autoRec := autoRec, done := some true,
        recoverCalled := false, emitted := false, usedSt := some .running }
  | .paused =>
      { hw := hw1, sobj := sobj1, autoRec := autoRec, done := some true,
        recoverCalled := false, emitted := false, usedSt := some .paused }
  | .prepared =>
      if !started then
        { hw := hw1, sobj := sobj1, autoRec := autoRec, done := some true,
          recoverCalled := false, emitted := false, usedSt := some .prepared }
      else
        { hw := (lib.start hw1).hw, sobj := sobj1, autoRec := autoRec,
          done := none, recoverCalled := false, emitted := false,
          usedSt := some .prepared }
  | .draining =>
      { hw := (lib.prepare hw1).hw, sobj := sobj1, autoRec := autoRec,
        done := none, recoverCalled := false, emitted := false,
        usedSt := some .draining }
  | .xrun =>
      { hw := (lib.prepare hw1).hw, sobj := sobj1, autoRec := autoRec,
        done := none, recoverCalled := false, emitted := false,
        usedSt := some .xrun }
  | .suspended =>
      let r := lib.resume hw1
      if r.err == -EAGAIN then
        { hw := r.hw, sobj := sobj1, autoRec := autoRec, done := none,
          recoverCalled := false, emitted := false, usedSt := some .suspended }
      else if r.err == -ENOSYS then
        { hw := (lib.prepare r.hw).hw, sobj := sobj1, autoRec := autoRec,
          done := none, recoverCalled := false, emitted := false,
          usedSt := some .suspended }
      else
        { hw := r.hw, sobj := sobj1, autoRec := autoRec, done := none,
          recoverCalled := false, emitted := false, usedSt := some .suspended }
  | .disconnected =>
      { hw := hw1, sobj := sobj1, autoRec := autoRec, done := some false,
        recoverCalled := false, emitted := true, usedSt := some .disconnected }
  | .opened =>
      { hw := hw1, sobj := sobj1, autoRec := autoRec, done := some false,
        recoverCalled := false, emitted := true, usedSt := some .opened }
  | .setup =>
      { hw := hw1, sobj := sobj1, autoRec := autoRec, done := some false,
        recoverCalled := false, emitted := true, usedSt := some .setup }
  | .private1 =>
      { hw := hw1, sobj := sobj1, autoRec := autoRec, done := some false,
        recoverCalled := false, emitted := true, usedSt := some .private1 }

/-- One iteration of the `for(int n = 0; n < 5; ++n)` loop of
`AlsaOutput::Private::attemptRecovery` (alsaoutput.cpp:396-451):
query `snd_pcm_status`; on a first transient fault call `snd_pcm_recover`
once and retry; on a second transient fault force `pcmst = XRUN`; then
dispatch on the state exactly as the source's if/switch chain does.
The status object is only considered (re)filled when the query succeeds. -/
def arIter {H : Type} (lib : PcmLib H) (started autoRec : Bool) (hw : H)
    (sobj : StatusObj) : ARIter H :=
  let s := lib.status hw
  let sobj1 := if 0 ≤ s.err then s.obj else sobj
  if transientStatusErr s.err && !autoRec then
    { hw := lib.recover s.hw s.err, sobj := sobj1, autoRec := true,
      done := none, recoverCalled := true, emitted := false, usedSt := none }
  else
    arDispatch lib started autoRec s.hw sobj1
      (if transientStatusErr s.err then PcmSt.xrun else sobj1.st)

/-- Aggregate outcome of `attemptRecovery`: whether recovery succeeded, the
final hardware and status-object contents, how many `Disconnected`
notifications were emitted, how many `snd_pcm_recover` calls were made and
how many loop iterations ran. -/
structure ARResult (H : Type) where
  recovered : Bool
  hw : H
  sobj : StatusObj
  emits : Nat
  recoverCalls : Nat
  iterations : Nat

/-- The bounded recovery loop of `attemptRecovery`, written with explicit
fuel (the source's `for(int n = 0; n < 5; ++n)`); falling off the end of
the loop is the trailing `return false` (alsaoutput.cpp:452). -/
def arLoop {H : Type} (lib : PcmLib H) (started : Bool) :
    Nat → H → StatusObj → Bool → Nat → Nat → Nat → ARResult H
  | 0, hw, sobj, _, e, r, it =>
      { recovered := false, hw := hw, sobj := sobj, emits := e,
        recoverCalls := r, iterations := it }
  | n + 1, hw, sobj, autoRec, e, r, it =>
      let s := arIter lib started autoRec hw sobj
      let e' := e + (if s.emitted then 1 else 0)
      let r' := r + (if s.recoverCalled then 1 else 0)
      match s.done with
      | some b =>
          { recovered := b, hw := s.hw, sobj := s.sobj, emits := e',
            recoverCalls := r', iterations := it + 1 }
      | none => arLoop lib started n s.hw s.sobj s.autoRec e' r' (it + 1)

/-- The `AlsaOutput::Private::attemptRecovery` (alsaoutput.cpp:386-453): the
status object starts zeroed, `autoRecoverAttempted` starts false, and the
loop runs for at most five iterations. -/
def attemptRecovery {H : Type} (lib : PcmLib H) (started : Bool) (hw : H) :
    ARResult H :=
  arLoop lib started 5 hw statusObj0 false 0 0 0

/-- The private per-instance state `AlsaOutput::Private`
(alsaoutput.cpp:234-248) with its member initialisers.  `pcmHandle` is
`some hw` when the unique_ptr holds an open handle whose hardware state is
`hw`, `none` when it is null. -/
structure AlsaPrivate (H : Type) where
  format : AudioFormat
  initialised : Bool := false
  pcmHandle : Option H := none
  bufferSize : Nat := 8192
  periodSize : Nat := 1024
  pausable : Bool := true
  volume : ℚ := 1
  device : String := "default"
  started : Bool := false
deriving DecidableEq

/-- A freshly constructed `AlsaOutput::Private` (all member initialisers;
the default-constructed `AudioFormat` is Unknown/0/0). -/
def alsaPrivate0 (H : Type) : AlsaPrivate H :=
  { format := { sampleFormat := .unknown, sampleRate := 0, channelCount := 0 } }

/-- The `AlsaOutput::Private::reset` (alsaoutput.cpp:254-262): if the handle is
open, drain and drop it and release it (the hardware state dies with the
closed handle), then clear `started`. -/
def AlsaPrivate.reset {H : Type} (p : AlsaPrivate H) : AlsaPrivate H :=
  match p.pcmHandle with
  | some _ => { p with pcmHandle := none, started := false }
  | none => { p with started := false }

/-- The `std::clamp(v, lo, hi)` as used at alsaoutput.cpp:474. -/
def clampInt (v lo hi : Int) : Int :=
  if v < lo then lo else if hi < v then hi else v

/-- The OutputState fill of `recoverState` (alsaoutput.cpp:470-478):
delay in seconds from the queried delay frames (clamped at 0), available
frames clamped into `[0, bufferSize]` and aligned down to a multiple of
the period size, queued = buffer − free. -/
def mkOutputState {H : Type} (p : AlsaPrivate H) (sobj : StatusObj) : OutputState :=
  let delay : ℚ := ((max sobj.delay 0 : Int) : ℚ) / ((p.format.sampleRate : Nat) : ℚ)
  let free1 : Int := clampInt sobj.avail 0 (p.bufferSize : Int)
  let free2 : Nat := free1.toNat / p.periodSize * p.periodSize
  { delay := delay, freeSamples := (free2 : Int),
    queuedSamples := (p.bufferSize : Int) - (free2 : Int) }

/-- Outcome of `recoverState`: the boolean result, the object state after
the call, the OutputState it wrote through its pointer argument (`none`
when the early null-handle return skipped the fill), and the number of
`Disconnected` notifications emitted. -/
structure RSRes (H : Type) where
  recovered : Bool
  p : AlsaPrivate H
  state : Option OutputState
  emits : Nat

/-- The `AlsaOutput::Private::recoverState` (alsaoutput.cpp:455-481): return
false at once on a null handle; otherwise run `attemptRecovery` and fill
the caller's OutputState from the final status object. -/
def AlsaPrivate.recoverState {H : Type} (lib : PcmLib H) (p : AlsaPrivate H) :
    RSRes H :=
  match p.pcmHandle with
  | none => { recovered := false, p := p, state := none, emits := 0 }
  | some hw =>
      let ar := attemptRecovery lib p.started hw
      { recovered := ar.recovered, p := { p with pcmHandle := some ar.hw },
        state := some (mkOutputState p ar.sobj), emits := ar.emits }

/-- Per-call results of the hardware/software parameter negotiation steps
of `initAlsa`, one field per `snd_*` call in source order
(alsaoutput.cpp:264-384); the `negotiated…` fields are the values the
`…_near` calls write back through their pointer arguments. -/
structure InitEnv (H : Type) where
  openResult : Int
  openedHw : H
  hwParamsAnyResult : Int
  canPause : Bool
  setAccessResult : Int
  formatMask : SndPcmFormat → Bool
  setFormatResult : Int
  setRateResult : Int
  setChannelsResult : Int
  getBufferSizeMaxResult : Int
  maxBufferSize : Nat
  setBufferSizeNearResult : Int
  negotiatedBufferSize : Nat → Nat
  setPeriodSizeNearResult : Int
  negotiatedPeriodSize : Nat → Nat
  hwParamsResult : Int
  swParamsCurrentResult : Int
  getBoundaryResult : Int
  setSilenceSizeResult : Int
  setSilenceThresholdResult : Int
  setStartThresholdResult : Int
  setStopThresholdResult : Int
  swParamsResult : Int

/-- The `formatSupported` (alsaoutput.cpp:41-65): a negative format constant is
unsupported, otherwise consult the hardware's format mask. -/
def formatSupported (mask : SndPcmFormat → Bool) (f : SndPcmFormat) : Bool :=
  if checkErr (formatCode f) then false else mask f

/-- The run of non-mutating negotiation checks of `initAlsa` between
`snd_pcm_hw_params_any` and the buffer-size update
(alsaoutput.cpp:287-325): access mode, ALSA format lookup, hardware format
support, set-format, set-rate, set-channels-near, get-max-buffer-size.
Each source step is `if(checkError(...)) return false;` with no state
change, so the run is the conjunction of the individual checks. -/
def accessAndFormatOk {H : Type} (env : InitEnv H) (fmt : AudioFormat) : Bool :=
  !checkErr env.setAccessResult &&
  !checkErr (formatCode (findAlsaFormat fmt.sampleFormat)) &&
  formatSupported env.formatMask (findAlsaFormat fmt.sampleFormat) &&
  !checkErr env.setFormatResult &&
  !checkErr env.setRateResult &&
  !checkErr env.setChannelsResult &&
  !checkErr env.getBufferSizeMaxResult

/-- The run of non-mutating software-parameter steps of `initAlsa`
(alsaoutput.cpp:346-381): current sw-params, boundary query, silence size
(play silence on underrun), silence threshold 0, start threshold INT_MAX,
stop threshold INT_MAX, apply sw-params.  Again each source step is an
early `return false` with no state change. -/
def swParamsOk {H : Type} (env : InitEnv H) : Bool :=
  !checkErr env.swParamsCurrentResult &&
  !checkErr env.getBoundaryResult &&
  !checkErr env.setSilenceSizeResult &&
  !checkErr env.setSilenceThresholdResult &&
  !checkErr env.setStartThresholdResult &&
  !checkErr env.setStopThresholdResult &&
  !checkErr env.swParamsResult

/-- The `AlsaOutput::Private::initAlsa` (alsaoutput.cpp:264-384), translated
step for step: open the device (storing the handle on success), then run
the hardware/software parameter negotiation chain, returning false at the
first failing step (the already-opened handle stays held), finishing with
`snd_pcm_prepare`.  `pausable`, `bufferSize` and `periodSize` are updated
at the same points the source updates them; runs of purely-checking steps
are grouped by `accessAndFormatOk` / `swParamsOk`. -/
def AlsaPrivate.initAlsa {H : Type} (lib : PcmLib H) (env : InitEnv H)
    (p : AlsaPrivate H) : Bool × AlsaPrivate H :=
  if checkErr env.openResult then (false, p)
  else
    let p := { p with pcmHandle := some env.openedHw }
    if checkErr env.hwParamsAnyResult then (false, p)
    else
      let p := { p with pausable := env.canPause }
      if !accessAndFormatOk env p.format then (false, p)
      else
        let p := { p with bufferSize :=
          env.negotiatedBufferSize (min p.bufferSize env.maxBufferSize) }
        if checkErr env.setBufferSizeNearResult then (false, p)
        else
          let p := { p with periodSize := env.negotiatedPeriodSize p.periodSize }
          if checkErr env.setPeriodSizeNearResult then (false, p)
          else if checkErr env.hwParamsResult then (false, p)
          else if !swParamsOk env then (false, p)
          else
            let r := lib.prepare env.openedHw
            (!checkErr r.err, { p with pcmHandle := some r.hw })

/-- The `AlsaOutput::uninit` (alsaoutput.cpp:506-510): `Private::reset` then
clear `initialised`. -/
def AlsaOutput.uninit {H : Type} (p : AlsaPrivate H) : AlsaPrivate H :=
  { p.reset with initialised := false }

/-- The `AlsaOutput::init` (alsaoutput.cpp:493-504): record the format, run
`initAlsa`; on failure call `uninit` and return false, on success set
`initialised`. -/
def AlsaOutput.init {H : Type} (lib : PcmLib H) (env : InitEnv H)
    (format : AudioFormat) (p : AlsaPrivate H) : Bool × AlsaPrivate H :=
  let p0 := { p with format := format }
  let r := p0.initAlsa lib env
  if r.1 then (true, { r.2 with initialised := true })
  else (false, AlsaOutput.uninit r.2)

/-- The `AlsaOutput::initialised` (alsaoutput.cpp:527-530). -/
def AlsaOutput.initialised {H : Type} (p : AlsaPrivate H) : Bool :=
  p.initialised

/-- The `AlsaOutput::reset` (alsaoutput.cpp:512-519): `snd_pcm_drop`,
`snd_pcm_prepare`, clear `started`, then `recoverState` (the source calls
drop/prepare on the raw handle without a null check; with a null handle
they are not modelled as touching any hardware state). -/
def AlsaOutput.reset {H : Type} (lib : PcmLib H) (p : AlsaPrivate H) :
    AlsaPrivate H :=
  match p.pcmHandle with
  | some hw =>
      let r1 := lib.drop hw
      let r2 := lib.prepare r1.hw
      let p1 := { p with pcmHandle := some r2.hw, started := false }
      (p1.recoverState lib).p
  | none =>
      let p1 := { p with started := false }
      (p1.recoverState lib).p

/-- The `AlsaOutput::start` (alsaoutput.cpp:521-525): set `started`, then
`snd_pcm_start`. -/
def AlsaOutput.start {H : Type} (lib : PcmLib H) (p : AlsaPrivate H) :
    AlsaPrivate H :=
  let p1 := { p with started := true }
  match p1.pcmHandle with
  | some hw => { p1 with pcmHandle := some (lib.start hw).hw }
  | none => p1

/-- The `AlsaOutput::currentState` (alsaoutput.cpp:542-549): default-construct
an OutputState, let `recoverState` fill it, return it. -/
def AlsaOutput.currentState {H : Type} (lib : PcmLib H) (p : AlsaPrivate H) :
    OutputState × AlsaPrivate H :=
  let rs := p.recoverState lib
  (rs.state.getD outputStateDefault, rs.p)

/-- Outcome of `AlsaOutput::write`: the return value, the object state, the
buffer handed to `snd_pcm_writei` (`none` when no hardware write was
issued), the caller's buffer after the call (the parameter is const; the
scaling happens on the local copy `adjustedBuff`), and notifications
emitted. -/
structure WriteRes (H : Type) where
  ret : Int
  p : AlsaPrivate H
  sent : Option AudioBuffer
  callerBuf : AudioBuffer
  emits : Nat

/-- The `AlsaOutput::write` (alsaoutput.cpp:561-582): return 0 on a null
handle or failed recovery; otherwise scale a local copy of the buffer by
the current volume, `snd_pcm_writei` it, and return 0 on a write error or
the (possibly short) frame count otherwise. -/
def AlsaOutput.write {H : Type} (lib : PcmLib H) (p : AlsaPrivate H)
    (buffer : AudioBuffer) : WriteRes H :=
  match p.pcmHandle with
  | none => { ret := 0, p := p, sent := none, callerBuf := buffer, emits := 0 }
  | some _ =>
      let rs := p.recoverState lib
      if !rs.recovered then
        { ret := 0, p := rs.p, sent := none, callerBuf := buffer, emits := rs.emits }
      else
        let frameCount := buffer.frameCount
        let adjustedBuff := AudioBuffer.scale rs.p.volume buffer
        match rs.p.pcmHandle with
        | some hw =>
            let w := lib.writei hw adjustedBuff frameCount
            let p2 := { rs.p with pcmHandle := some w.hw }
            if checkErr w.err then
              { ret := 0, p := p2, sent := some adjustedBuff,
                callerBuf := buffer, emits := rs.emits }
            else
              { ret := w.err, p := p2, sent := some adjustedBuff,
                callerBuf := buffer, emits := rs.emits }
        | none =>
            { ret := 0, p := rs.p, sent := none, callerBuf := buffer,
              emits := rs.emits }

/-- The `AlsaOutput::setPaused` (alsaoutput.cpp:584-599): no-op when the device
cannot pause; otherwise recover, query the raw state and issue
`snd_pcm_pause` only from RUNNING (pausing) or PAUSED (resuming). -/
def AlsaOutput.setPaused {H : Type} (lib : PcmLib H) (p : AlsaPrivate H)
    (pause : Bool) : AlsaPrivate H :=
  if !p.pausable then p
  else
    let p1 := (p.recoverState lib).p
    match p1.pcmHandle with
    | some hw =>
        let st := lib.rawState hw
        if st = .running ∧ pause then
          { p1 with pcmHandle := some (lib.pause hw true).hw }
        else if st = .paused ∧ ¬pause then
          { p1 with pcmHandle := some (lib.pause hw false).hw }
        else p1
    | none => p1

/-- The `AlsaOutput::setVolume` (alsaoutput.cpp:601-604). -/
def AlsaOutput.setVolume {H : Type} (p : AlsaPrivate H) (volume : ℚ) :
    AlsaPrivate H :=
  { p with volume := volume }

/-- The `AlsaOutput::setDevice` (alsaoutput.cpp:606-611). -/
def AlsaOutput.setDevice {H : Type} (p : AlsaPrivate H) (device : String) :
    AlsaPrivate H :=
  if device = "" then p else { p with device := device }

/-- One entry of the `snd_device_name_hint` result as the backend reads it:
the NAME, DESC and IOID hints (each may be absent). -/
structure Hint where
  name : Option String
  desc : Option String
  ioid : Option String
deriving DecidableEq

/-- Per-device data of the hardware enumeration: the index returned by
`snd_ctl_pcm_next_device`, whether `snd_ctl_pcm_info` succeeds, and the
PCM name read from the info. -/
structure PcmDevInfo where
  dev : Int
  infoOk : Bool
  pcmName : String
deriving DecidableEq

/-- Per-card data of the hardware enumeration: the index returned by
`snd_card_next`, whether `snd_ctl_open` / `snd_ctl_card_info` succeed, the
card name, and its playback devices in enumeration order. -/
structure CardInfo where
  card : Int
  openOk : Bool
  infoOk : Bool
  cardName : String
  devs : List PcmDevInfo
deriving DecidableEq

/-- Environment of `getAllDevices`: whether `snd_device_name_hint` fails,
the hint list it returns, and the sound cards `snd_card_next` walks. -/
structure EnumEnv where
  hintErr : Bool
  hints : List Hint
  cards : List CardInfo

/-- The IOID filter of `getPcmDevices` (alsaoutput.cpp:217): a hint is
skipped when its IOID is present and is not "Output". -/
def ioidSkipped (h : Hint) : Bool :=
  match h.ioid with
  | some io => io ≠ "Output"
  | none => false

/-- The loop body of `getPcmDevices` (alsaoutput.cpp:212-229): skip hints
without NAME or DESC, or whose IOID is present and differs from "Output";
insert a hint literally named "default" at the front of the device vector,
append every other hint with description "name - desc". -/
def pcmLoop : List Hint → List OutputDevice → List OutputDevice
  | [], devices => devices
  | h :: rest, devices =>
      match h.name, h.desc with
      | some nm, some ds =>
          if ioidSkipped h then
            pcmLoop rest devices
          else if nm = "default" then
            pcmLoop rest ({ name := nm, desc := ds } :: devices)
          else
            pcmLoop rest (devices ++ [{ name := nm, desc := nm ++ " - " ++ ds }])
      | _, _ => pcmLoop rest devices

/-- The `getPcmDevices` (alsaoutput.cpp:204-230): return unchanged when
`snd_device_name_hint` fails, otherwise run the hint loop. -/
def getPcmDevices (env : EnumEnv) (devices : List OutputDevice) :
    List OutputDevice :=
  if env.hintErr then devices else pcmLoop env.hints devices

/-- The `hw:<card>,<device>` name synthesised at alsaoutput.cpp:195. -/
def hwName (card dev : Int) : String :=
  "hw:" ++ toString card ++ "," ++ toString dev

/-- The hardware-device description synthesised at alsaoutput.cpp:196-198:
`"%1 - %2 %3"` with the name, the card name and the PCM info name. -/
def hwDesc (card dev : Int) (cardName pcmName : String) : String :=
  hwName card dev ++ " - " ++ cardName ++ " " ++ pcmName

/-- The devices one card contributes in `getHardwareDevices`
(alsaoutput.cpp:176-200): its playback devices in order, skipping those
whose `snd_ctl_pcm_info` fails. -/
def cardDevices (c : CardInfo) : List OutputDevice :=
  c.devs.filterMap fun d =>
    if d.infoOk then
      some { name := hwName c.card d.dev, desc := hwDesc c.card d.dev c.cardName d.pcmName }
    else none

/-- The `getHardwareDevices` (alsaoutput.cpp:140-202): walk the sound cards,
skipping cards that fail to open or whose card info fails, appending each
remaining card's devices to the vector. -/
def getHardwareDevices : List CardInfo → List OutputDevice → List OutputDevice
  | [], devices => devices
  | c :: rest, devices =>
      if !c.openOk then getHardwareDevices rest devices
      else if !c.infoOk then getHardwareDevices rest devices
      else getHardwareDevices rest (devices ++ cardDevices c)

/-- The `AlsaOutput::getAllDevices` (alsaoutput.cpp:551-559): start from an
empty vector, run `getPcmDevices` then `getHardwareDevices`.  The method is
const: it takes the object state and returns it untouched. -/
def AlsaOutput.getAllDevices {H : Type} (env : EnumEnv) (p : AlsaPrivate H) :
    List OutputDevice × AlsaPrivate H :=
  (getHardwareDevices env.cards (getPcmDevices env []), p)

/-- A concrete reference model of an ALSA PCM sink, for evaluating the
backend on concrete inputs.  Modelled from the spec and the documented
`snd_pcm_*` semantics: the sink tracks its state, how many frames are
queued and its buffer capacity. -/
structure RefHw where
  st : PcmSt
  queued : Nat
  bufSize : Nat
deriving DecidableEq

/-- The reference `PcmLib` over `RefHw`: `status` succeeds and reports
avail = capacity − queued and delay = queued; `prepare` readies the sink
and empties it; `drop` discards queued frames and returns to SETUP;
`start` arms a prepared sink; `resume` wakes a suspended one; `writei`
accepts as many frames as fit. -/
def refLib : PcmLib RefHw where
  status hw := { err := 0, obj := { st := hw.st, avail := (hw.bufSize : Int) - (hw.queued : Int), delay := (hw.queued : Int) }, hw := hw }
  recover hw _ := { hw with st := .prepared, queued := 0 }
  start hw := if hw.st = .prepared then { err := 0, hw := { hw with st := .running } } else { err := -77, hw := hw }
  prepare hw := { err := 0, hw := { hw with st := .prepared, queued := 0 } }
  resume hw := if hw.st = .suspended then { err := 0, hw := { hw with st := .running } } else { err := -77, hw := hw }
  drop hw := { err := 0, hw := { hw with st := .setup, queued := 0 } }
  writei hw _ n :=
    let w := min n (hw.bufSize - hw.queued)
    { err := (w : Int), hw := { hw with queued := hw.queued + w } }
  rawState hw := hw.st
  pause hw b := { err := 0, hw := { hw with st := if b then .paused else .running } }

/-- A degenerate sink whose status query always reports DISCONNECTED
(the spec's "mock sink reports disconnected on every state query"). -/
def discLib : PcmLib Unit where
  status _ := { err := 0, obj := { st := .disconnected, avail := 0, delay := 0 }, hw := () }
  recover _ _ := ()
  start _ := { err := 0, hw := () }
  prepare _ := { err := 0, hw := () }
  resume _ := { err := 0, hw := () }
  drop _ := { err := 0, hw := () }
  writei _ _ _ := { err := 0, hw := () }
  rawState _ := .disconnected
  pause _ _ := { err := 0, hw := () }

/-- A degenerate sink whose status query always fails with -EPIPE, to
exercise the transient-fault path of the recovery loop. -/
def transLib : PcmLib Unit where
  status _ := { err := -EPIPE, obj := statusObj0, hw := () }
  recover _ _ := ()
  start _ := { err := 0, hw := () }
  prepare _ := { err := 0, hw := () }
  resume _ := { err := 0, hw := () }
  drop _ := { err := 0, hw := () }
  writei _ _ _ := { err := 0, hw := () }
  rawState _ := .opened
  pause _ _ := { err := 0, hw := () }

/-- The state dispatch never calls `snd_pcm_recover`. -/
theorem arDispatch_recoverCalled {H : Type} (lib : PcmLib H)
    (started autoRec : Bool) (hw1 : H) (sobj1 : StatusObj) (st : PcmSt) :
    (arDispatch lib started autoRec hw1 sobj1 st).recoverCalled = false := by
  cases st <;> simp only [arDispatch] <;> (try split) <;> (try split) <;> simp

/-- The state dispatch passes the auto-recover flag through unchanged. -/
theorem arDispatch_autoRec {H : Type} (lib : PcmLib H)
    (started autoRec : Bool) (hw1 : H) (sobj1 : StatusObj) (st : PcmSt) :
    (arDispatch lib started autoRec hw1 sobj1 st).autoRec = autoRec := by
  cases st <;> simp only [arDispatch] <;> (try split) <;> (try split) <;> simp

/-- A dispatch that continues the loop has not emitted a notification:
the Disconnected emission happens only on the returning device-lost branch. -/
theorem arDispatch_done_emitted {H : Type} (lib : PcmLib H)
    (started autoRec : Bool) (hw1 : H) (sobj1 : StatusObj) (st : PcmSt) :
    (arDispatch lib started autoRec hw1 sobj1 st).done = none →
    (arDispatch lib started autoRec hw1 sobj1 st).emitted = false := by
  cases st <;> simp only [arDispatch] <;> (try split) <;> (try split) <;> simp

/-- Facts about one recovery-loop iteration: a `continue` never emits a
notification; the auto-recover call only happens when no auto-recover was
attempted yet and marks it attempted; without an auto-recover call the
attempted flag passes through unchanged. -/
theorem arIter_flags {H : Type} (lib : PcmLib H) (started autoRec : Bool)
    (hw : H) (sobj : StatusObj) :
    ((arIter lib started autoRec hw sobj).done = none →
        (arIter lib started autoRec hw sobj).emitted = false) ∧
    ((arIter lib started autoRec hw sobj).recoverCalled = true →
        autoRec = false ∧ (arIter lib started autoRec hw sobj).autoRec = true) ∧
    ((arIter lib started autoRec hw sobj).recoverCalled = false →
        (arIter lib started autoRec hw sobj).autoRec = autoRec) := by
  by_cases hc : (transientStatusErr (lib.status hw).err && !autoRec) = true
  · simp only [Bool.and_eq_true, Bool.not_eq_true'] at hc
    simp [arIter, hc]
  · rw [Bool.not_eq_true] at hc
    simp only [arIter, hc, Bool.false_eq_true, if_false]
    exact ⟨fun h => arDispatch_done_emitted _ _ _ _ _ _ h,
      fun h => by rw [arDispatch_recoverCalled] at h; exact absurd h (by simp),
      fun _ => arDispatch_autoRec _ _ _ _ _ _⟩

/-- The recovery loop runs at most `fuel` further iterations. -/
theorem arLoop_iterations_le {H : Type} (lib : PcmLib H) (started : Bool) :
    ∀ (fuel : Nat) (hw : H) (sobj : StatusObj) (a : Bool) (e r it : Nat),
      (arLoop lib started fuel hw sobj a e r it).iterations ≤ it + fuel := by
  intro fuel
  induction fuel with
  | zero => intro hw sobj a e r it; simp [arLoop]
  | succ n ih =>
      intro hw sobj a e r it
      simp only [arLoop]
      cases hd : (arIter lib started a hw sobj).done with
      | some b => simp only [hd]; omega
      | none =>
          simp only [hd]
          have h := ih (arIter lib started a hw sobj).hw
            (arIter lib started a hw sobj).sobj
            (arIter lib started a hw sobj).autoRec
            (e + if (arIter lib started a hw sobj).emitted then 1 else 0)
            (r + if (arIter lib started a hw sobj).recoverCalled then 1 else 0)
            (it + 1)
          omega

/-- The recovery loop emits at most one notification beyond the running
count: a loop body that emits also returns. -/
theorem arLoop_emits_le {H : Type} (lib : PcmLib H) (started : Bool) :
    ∀ (fuel : Nat) (hw : H) (sobj : StatusObj) (a : Bool) (e r it : Nat),
      (arLoop lib started fuel hw sobj a e r it).emits ≤ e + 1 := by
  intro fuel
  induction fuel with
  | zero => intro hw sobj a e r it; simp [arLoop]
  | succ n ih =>
      intro hw sobj a e r it
      simp only [arLoop]
      cases hd : (arIter lib started a hw sobj).done with
      | some b => simp only [hd]; split <;> omega
      | none =>
          simp only [hd]
          have hem := (arIter_flags lib started a hw sobj).1 hd
          rw [hem]
          simp only [Bool.false_eq_true, if_false, Nat.add_zero]
          exact ih (arIter lib started a hw sobj).hw
            (arIter lib started a hw sobj).sobj
            (arIter lib started a hw sobj).autoRec e
            (r + if (arIter lib started a hw sobj).recoverCalled then 1 else 0)
            (it + 1)

/-- The recovery loop makes at most one auto-recover call in total: once
`autoRecoverAttempted` is set, no further `snd_pcm_recover` happens. -/
theorem arLoop_recover_le {H : Type} (lib : PcmLib H) (started : Bool) :
    ∀ (fuel : Nat) (hw : H) (sobj : StatusObj) (a : Bool) (e r it : Nat),
      (arLoop lib started fuel hw sobj a e r it).recoverCalls ≤
        r + (if a then 0 else 1) := by
  intro fuel
  induction fuel with
  | zero =>
      intro hw sobj a e r it
      simp only [arLoop]
      split <;> omega
  | succ n ih =>
      intro hw sobj a e r it
      have hflags := arIter_flags lib started a hw sobj
      simp only [arLoop]
      cases hrc : (arIter lib started a hw sobj).recoverCalled with
      | true =>
          obtain ⟨ha, hnext⟩ := hflags.2.1 hrc
          subst ha
          cases hd : (arIter lib started false hw sobj).done with
          | some b => simp only [hd]; simp [hrc]
          | none =>
              simp only [hd]
              rw [hnext]
              have h := ih (arIter lib started false hw sobj).hw
                (arIter lib started false hw sobj).sobj true
                (e + if (arIter lib started false hw sobj).emitted then 1 else 0)
                (r + 1) (it + 1)
              simp at h ⊢
              omega
      | false =>
          have hnext := hflags.2.2 hrc
          cases hd : (arIter lib started a hw sobj).done with
          | some b =>
              simp only [hd]
              simp only [hrc, Bool.false_eq_true, if_false, Nat.add_zero]
              split <;> omega
          | none =>
              simp only [hd]
              rw [hnext]
              simp only [Bool.false_eq_true, if_false, Nat.add_zero]
              exact ih (arIter lib started a hw sobj).hw
                (arIter lib started a hw sobj).sobj a
                (e + if (arIter lib started a hw sobj).emitted then 1 else 0)
                r (it + 1)

/-- The `recoverState` only rewrites the pcm handle: every other field of the
private state passes through, and whether a handle is held is unchanged. -/
theorem recoverState_preserves {H : Type} (lib : PcmLib H) (p : AlsaPrivate H) :
    (p.recoverState lib).p.volume = p.volume ∧
    (p.recoverState lib).p.initialised = p.initialised ∧
    (p.recoverState lib).p.started = p.started ∧
    (p.recoverState lib).p.bufferSize = p.bufferSize ∧
    (p.recoverState lib).p.periodSize = p.periodSize ∧
    (p.recoverState lib).p.pcmHandle.isSome = p.pcmHandle.isSome := by
  unfold AlsaPrivate.recoverState
  cases hp : p.pcmHandle <;> simp [hp]

/-- The `recoverState` emits at most one Disconnected notification. -/
theorem recoverState_emits_le {H : Type} (lib : PcmLib H) (p : AlsaPrivate H) :
    (p.recoverState lib).emits ≤ 1 := by
  unfold AlsaPrivate.recoverState
  cases p.pcmHandle with
  | none => simp
  | some hw =>
      simpa [attemptRecovery] using arLoop_emits_le lib p.started 5 hw statusObj0 false 0 0 0

/-- The `write` returns the caller's buffer untouched on every path: the
volume scaling happens on the local copy only. -/
theorem write_callerBuf {H : Type} (lib : PcmLib H) (p : AlsaPrivate H)
    (buffer : AudioBuffer) :
    (AlsaOutput.write lib p buffer).callerBuf = buffer := by
  cases hp : p.pcmHandle <;> simp only [AlsaOutput.write, hp] <;>
    (repeat' split) <;> rfl

/-- C2: the recovery routine terminates after at most five iterations of
its loop, makes at most one automatic `snd_pcm_recover` call per
invocation, and a transient status fault after the auto-recover attempt
forces the state to XRUN (no second recover call) instead of retrying. -/
theorem attemptRecovery_bounded {H : Type} (lib : PcmLib H) (started : Bool)
    (hw : H) :
    (attemptRecovery lib started hw).iterations ≤ 5 ∧
    (attemptRecovery lib started hw).recoverCalls ≤ 1 ∧
    (∀ (h : H) (s : StatusObj), transientStatusErr (lib.status h).err = true →
      (arIter lib started true h s).recoverCalled = false ∧
      (arIter lib started true h s).usedSt = some PcmSt.xrun) := by
  refine ⟨?_, ?_, ?_⟩
  · simpa [attemptRecovery] using
      arLoop_iterations_le lib started 5 hw statusObj0 false 0 0 0
  · simpa [attemptRecovery] using
      arLoop_recover_le lib started 5 hw statusObj0 false 0 0 0
  · intro h s htr
    simp [arIter, htr, arDispatch]

/-- Witness for C2 on the concrete always-transient sink. -/
theorem attemptRecovery_bounded_witness :
    (attemptRecovery transLib false ()).iterations ≤ 5 ∧
    (attemptRecovery transLib false ()).recoverCalls ≤ 1 ∧
    ((arIter transLib false true () statusObj0).recoverCalled = false ∧
      (arIter transLib false true () statusObj0).usedSt = some PcmSt.xrun) :=
  ⟨(attemptRecovery_bounded transLib false ()).1,
   (attemptRecovery_bounded transLib false ()).2.1,
   (attemptRecovery_bounded transLib false ()).2.2 () statusObj0 (by decide)⟩

/-- C5 (amended): one invocation of the recovery routine emits the
Disconnected notification at most once (it returns right after emitting),
and hence one `write` call emits it at most once; the bound is per
operation, not per failure episode. -/
theorem disconnected_once_per_recovery {H : Type} (lib : PcmLib H)
    (started : Bool) (hw : H) (p : AlsaPrivate H) (buffer : AudioBuffer) :
    (attemptRecovery lib started hw).emits ≤ 1 ∧
    (AlsaOutput.write lib p buffer).emits ≤ 1 := by
  constructor
  · simpa [attemptRecovery] using
      arLoop_emits_le lib started 5 hw statusObj0 false 0 0 0
  · have hrs := recoverState_emits_le lib p
    cases hp : p.pcmHandle <;> simp only [AlsaOutput.write, hp]
    · simp
    · (repeat' split) <;> simpa using hrs

/-- The sample format / buffer used by concrete evaluations. -/
def fmtW : AudioFormat :=
  { sampleFormat := .s16, sampleRate := 44100, channelCount := 2 }

/-- A small concrete stereo buffer of 4 frames. -/
def bufW : AudioBuffer :=
  { frameCount := 4, samples := [1, -1, 1/2, -1/2, 1/4, -1/4, 1, 0] }

/-- A device object whose sink reports DISCONNECTED on every query. -/
def discPriv : AlsaPrivate Unit :=
  { format := fmtW, initialised := true, pcmHandle := some () }

/-- C5 counterexample: on a sink that reports disconnected on every state
query, two consecutive `write` calls in the same failure episode emit two
Disconnected notifications — not exactly one. -/
theorem disconnected_notification_spam_cex :
    (AlsaOutput.write discLib discPriv bufW).emits +
      (AlsaOutput.write discLib
        (AlsaOutput.write discLib discPriv bufW).p bufW).emits = 2 ∧
    ¬ ((AlsaOutput.write discLib discPriv bufW).emits +
      (AlsaOutput.write discLib
        (AlsaOutput.write discLib discPriv bufW).p bufW).emits = 1) := by
  constructor <;> decide

/-- C1: `write` returns 0 and issues no hardware write on a closed handle
or when recovery fails; and, provided the hardware honours the ALSA
contract that `snd_pcm_writei` never reports more frames than requested,
the return value always lies between 0 and `buffer.frameCount()`. -/
theorem write_return_bounds {H : Type} (lib : PcmLib H) (p : AlsaPrivate H)
    (buffer : AudioBuffer)
    (hlib : ∀ (hw : H) (b : AudioBuffer) (n : Nat),
      (lib.writei hw b n).err ≤ (n : Int)) :
    (p.pcmHandle = none →
      (AlsaOutput.write lib p buffer).ret = 0 ∧
      (AlsaOutput.write lib p buffer).sent = none) ∧
    ((p.recoverState lib).recovered = false →
      (AlsaOutput.write lib p buffer).ret = 0 ∧
      (AlsaOutput.write lib p buffer).sent = none) ∧
    0 ≤ (AlsaOutput.write lib p buffer).ret ∧
    (AlsaOutput.write lib p buffer).ret ≤ (buffer.frameCount : Int) := by
  cases hp : p.pcmHandle with
  | none => simp [AlsaOutput.write, hp]
  | some h0 =>
      cases hr : (p.recoverState lib).recovered with
      | false => simp [AlsaOutput.write, hp, hr]
      | true =>
          have hb : 0 ≤ (AlsaOutput.write lib p buffer).ret ∧
              (AlsaOutput.write lib p buffer).ret ≤ (buffer.frameCount : Int) := by
            simp only [AlsaOutput.write, hp, hr, Bool.not_true,
              Bool.false_eq_true, if_false]
            cases hpp : (p.recoverState lib).p.pcmHandle with
            | none => exact ⟨le_refl 0, Int.natCast_nonneg _⟩
            | some h1 =>
                dsimp only
                by_cases hce : checkErr (lib.writei h1
                    (AudioBuffer.scale (p.recoverState lib).p.volume buffer)
                    buffer.frameCount).err = true
                · rw [if_pos hce]
                  exact ⟨le_refl 0, Int.natCast_nonneg _⟩
                · rw [if_neg hce]
                  rw [Bool.not_eq_true] at hce
                  unfold checkErr at hce
                  simp only [decide_eq_false_iff_not, not_lt] at hce
                  exact ⟨hce, hlib _ _ _⟩
          refine ⟨fun h => ?_, fun h => ?_, hb⟩
          · exact Option.noConfusion h
          · exact Bool.noConfusion h

/-- A concrete healthy running sink and the device object holding it. -/
def hwW : RefHw := { st := .running, queued := 0, bufSize := 8192 }

/-- A concrete initialised device object over the reference sink. -/
def pW : AlsaPrivate RefHw :=
  { format := fmtW, initialised := true, pcmHandle := some hwW }

/-- Witness for C1 at the concrete reference sink. -/
theorem write_return_bounds_witness :
    (pW.pcmHandle = none →
      (AlsaOutput.write refLib pW bufW).ret = 0 ∧
      (AlsaOutput.write refLib pW bufW).sent = none) ∧
    ((pW.recoverState refLib).recovered = false →
      (AlsaOutput.write refLib pW bufW).ret = 0 ∧
      (AlsaOutput.write refLib pW bufW).sent = none) ∧
    0 ≤ (AlsaOutput.write refLib pW bufW).ret ∧
    (AlsaOutput.write refLib pW bufW).ret ≤ (bufW.frameCount : Int) :=
  write_return_bounds refLib pW bufW
    (fun hw b n => by
      simp only [refLib]
      exact_mod_cast Nat.min_le_left n (hw.bufSize - hw.queued))

/-- The `std::clamp(v, 0, hi)` lies between 0 and `hi`. -/
theorem clampInt_nonneg_le (v hi : Int) (h : 0 ≤ hi) :
    0 ≤ clampInt v 0 hi ∧ clampInt v 0 hi ≤ hi := by
  unfold clampInt
  split <;> (try split) <;> omega

/-- The `std::clamp(v, 0, hi)` is `hi` when `v` is at least `hi`. -/
theorem clampInt_eq_hi (v hi : Int) (h0 : 0 ≤ hi) (hv : hi ≤ v) :
    clampInt v 0 hi = hi := by
  unfold clampInt
  split <;> (try split) <;> omega

/-- The OutputState built from any status object satisfies the reporting
invariant: free is in `[0, bufferSize]`, a multiple of the period size,
and queued is exactly buffer minus free. -/
theorem mkOutputState_spec {H : Type} (p : AlsaPrivate H) (sobj : StatusObj) :
    0 ≤ (mkOutputState p sobj).freeSamples ∧
    (mkOutputState p sobj).freeSamples ≤ (p.bufferSize : Int) ∧
    ((p.periodSize : Int) ∣ (mkOutputState p sobj).freeSamples) ∧
    (mkOutputState p sobj).queuedSamples =
      (p.bufferSize : Int) - (mkOutputState p sobj).freeSamples := by
  have hfree : (mkOutputState p sobj).freeSamples =
      (((clampInt sobj.avail 0 (p.bufferSize : Int)).toNat / p.periodSize *
        p.periodSize : Nat) : Int) := rfl
  have hq : (mkOutputState p sobj).queuedSamples =
      (p.bufferSize : Int) - (mkOutputState p sobj).freeSamples := rfl
  refine ⟨?_, ?_, ?_, hq⟩
  · rw [hfree]; exact Int.natCast_nonneg _
  · rw [hfree]
    have h1 := (clampInt_nonneg_le sobj.avail (p.bufferSize : Int)
      (Int.natCast_nonneg _)).2
    have h2 : (clampInt sobj.avail 0 (p.bufferSize : Int)).toNat ≤ p.bufferSize :=
      Int.toNat_le.mpr h1
    have h3 := Nat.div_mul_le_self
      (clampInt sobj.avail 0 (p.bufferSize : Int)).toNat p.periodSize
    exact_mod_cast le_trans h3 h2
  · rw [hfree]
    exact_mod_cast Int.natCast_dvd_natCast.mpr (dvd_mul_left _ _)

/-- When the status object reports at least the whole buffer available and
the period size divides the buffer size, the computed queued count is 0. -/
theorem mkOutputState_queued_zero {H : Type} (p : AlsaPrivate H)
    (sobj : StatusObj) (hav : (p.bufferSize : Int) ≤ sobj.avail)
    (hdvd : p.periodSize ∣ p.bufferSize) :
    (mkOutputState p sobj).queuedSamples = 0 := by
  have hq : (mkOutputState p sobj).queuedSamples =
      (p.bufferSize : Int) -
        (((clampInt sobj.avail 0 (p.bufferSize : Int)).toNat / p.periodSize *
          p.periodSize : Nat) : Int) := rfl
  rw [hq, clampInt_eq_hi _ _ (Int.natCast_nonneg _) hav]
  simp [Nat.div_mul_cancel hdvd]

/-- C3: every OutputState reported by `currentState` on a device holding a
handle has freeSamples in `[0, bufferSize]`, an exact multiple of the
period size (aligned down), and queuedSamples = bufferSize − freeSamples;
and when the hardware reports the whole buffer available (the situation
immediately after a successful init, before any write) and the negotiated
period size divides the negotiated buffer size, queuedSamples is 0. -/
theorem currentState_bounds {H : Type} (lib : PcmLib H) (p : AlsaPrivate H)
    (hw : H) (hh : p.pcmHandle = some hw) :
    0 ≤ (AlsaOutput.currentState lib p).1.freeSamples ∧
    (AlsaOutput.currentState lib p).1.freeSamples ≤ (p.bufferSize : Int) ∧
    ((p.periodSize : Int) ∣ (AlsaOutput.currentState lib p).1.freeSamples) ∧
    (AlsaOutput.currentState lib p).1.queuedSamples =
      (p.bufferSize : Int) - (AlsaOutput.currentState lib p).1.freeSamples ∧
    ((p.bufferSize : Int) ≤ (attemptRecovery lib p.started hw).sobj.avail →
      p.periodSize ∣ p.bufferSize →
      (AlsaOutput.currentState lib p).1.queuedSamples = 0) := by
  have hcs : (AlsaOutput.currentState lib p).1 =
      mkOutputState p (attemptRecovery lib p.started hw).sobj := by
    simp [AlsaOutput.currentState, AlsaPrivate.recoverState, hh]
  rw [hcs]
  obtain ⟨h1, h2, h3, h4⟩ :=
    mkOutputState_spec p (attemptRecovery lib p.started hw).sobj
  exact ⟨h1, h2, h3, h4,
    fun hav hdvd => mkOutputState_queued_zero p _ hav hdvd⟩

/-- Witness for C3 at the concrete reference sink. -/
theorem currentState_bounds_witness :
    0 ≤ (AlsaOutput.currentState refLib pW).1.freeSamples ∧
    (AlsaOutput.currentState refLib pW).1.freeSamples ≤ (pW.bufferSize : Int) ∧
    ((pW.periodSize : Int) ∣ (AlsaOutput.currentState refLib pW).1.freeSamples) ∧
    (AlsaOutput.currentState refLib pW).1.queuedSamples =
      (pW.bufferSize : Int) - (AlsaOutput.currentState refLib pW).1.freeSamples ∧
    ((pW.bufferSize : Int) ≤ (attemptRecovery refLib pW.started hwW).sobj.avail →
      pW.periodSize ∣ pW.bufferSize →
      (AlsaOutput.currentState refLib pW).1.queuedSamples = 0) :=
  currentState_bounds refLib pW hwW rfl

/-- One returning iteration finishes the recovery loop. -/
theorem arLoop_step_done {H : Type} (lib : PcmLib H) (started : Bool)
    (n : Nat) (hw : H) (sobj : StatusObj) (a : Bool) (e r it : Nat) (b : Bool)
    (hb : (arIter lib started a hw sobj).done = some b) :
    arLoop lib started (n + 1) hw sobj a e r it =
      { recovered := b, hw := (arIter lib started a hw sobj).hw,
        sobj := (arIter lib started a hw sobj).sobj,
        emits := e + (if (arIter lib started a hw sobj).emitted then 1 else 0),
        recoverCalls :=
          r + (if (arIter lib started a hw sobj).recoverCalled then 1 else 0),
        iterations := it + 1 } := by
  simp only [arLoop, hb]

/-- On the reference sink, one iteration from a PREPARED state with the
started flag clear returns success immediately. -/
theorem arIter_refLib_prepared (hw : RefHw) (h : hw.st = PcmSt.prepared)
    (sobj : StatusObj) :
    arIter refLib false false hw sobj =
      { hw := hw,
        sobj := { st := PcmSt.prepared,
                  avail := (hw.bufSize : Int) - (hw.queued : Int),
                  delay := (hw.queued : Int) },
        autoRec := false, done := some true, recoverCalled := false,
        emitted := false, usedSt := some PcmSt.prepared } := by
  simp [arIter, refLib, arDispatch, transientStatusErr, EPIPE, EINTR,
    ESTRPIPE, h]

/-- On the reference sink, recovery from a PREPARED, not-yet-started state
succeeds on the first iteration without touching the hardware. -/
theorem attemptRecovery_refLib_prepared (hw : RefHw)
    (h : hw.st = PcmSt.prepared) :
    attemptRecovery refLib false hw =
      { recovered := true, hw := hw,
        sobj := { st := PcmSt.prepared,
                  avail := (hw.bufSize : Int) - (hw.queued : Int),
                  delay := (hw.queued : Int) },
        emits := 0, recoverCalls := 0, iterations := 1 } := by
  have hstep := arLoop_step_done refLib false 4 hw statusObj0 false 0 0 0 true
    (by rw [arIter_refLib_prepared hw h])
  unfold attemptRecovery
  rw [show (5 : Nat) = 4 + 1 from rfl, hstep, arIter_refLib_prepared hw h]
  simp

/-- Evaluation of the reference sink's `snd_pcm_drop`. -/
theorem refLib_drop (hw : RefHw) : refLib.drop hw =
    { err := 0, hw := { st := PcmSt.setup, queued := 0, bufSize := hw.bufSize } } :=
  rfl

/-- Evaluation of the reference sink's `snd_pcm_prepare`. -/
theorem refLib_prepare (hw : RefHw) : refLib.prepare hw =
    { err := 0, hw := { st := PcmSt.prepared, queued := 0, bufSize := hw.bufSize } } :=
  rfl

/-- C7: on the reference sink, `reset()` on a device holding a handle
leaves the started flag cleared and the handle open, and a subsequent
`currentState` reports `queuedSamples == 0` (given the negotiated sizes
are consistent: the sink's capacity is the negotiated buffer size and the
period size divides it); written audio therefore waits for `start()`. -/
theorem reset_requires_start (p : AlsaPrivate RefHw) (hw : RefHw)
    (hh : p.pcmHandle = some hw) (hbuf : hw.bufSize = p.bufferSize)
    (hdvd : p.periodSize ∣ p.bufferSize) :
    (AlsaOutput.reset refLib p).started = false ∧
    (AlsaOutput.reset refLib p).pcmHandle.isSome = true ∧
    (AlsaOutput.currentState refLib (AlsaOutput.reset refLib p)).1.queuedSamples
      = 0 := by
  have hreset : AlsaOutput.reset refLib p =
      { p with
        pcmHandle := some { st := PcmSt.prepared, queued := 0, bufSize := hw.bufSize },
        started := false } := by
    simp only [AlsaOutput.reset, hh, refLib_drop, refLib_prepare]
    simp [AlsaPrivate.recoverState, attemptRecovery_refLib_prepared]
  have h3 : ∀ (q : AlsaPrivate RefHw) (hwq : RefHw), q.pcmHandle = some hwq →
      hwq.st = PcmSt.prepared → q.started = false →
      (q.bufferSize : Int) ≤ (hwq.bufSize : Int) - (hwq.queued : Int) →
      q.periodSize ∣ q.bufferSize →
      (AlsaOutput.currentState refLib q).1.queuedSamples = 0 := by
    intro q hwq hq hst hstarted hle hd
    have hcs : (AlsaOutput.currentState refLib q).1 =
        mkOutputState q
          { st := PcmSt.prepared,
            avail := (hwq.bufSize : Int) - (hwq.queued : Int),
            delay := (hwq.queued : Int) } := by
      simp [AlsaOutput.currentState, AlsaPrivate.recoverState, hq, hstarted,
        attemptRecovery_refLib_prepared hwq hst]
    rw [hcs]
    exact mkOutputState_queued_zero q _ hle hd
  rw [hreset]
  refine ⟨rfl, rfl, ?_⟩
  refine h3 _ _ rfl rfl rfl ?_ hdvd
  simp [hbuf]

/-- Witness for C7 at the concrete reference sink. -/
theorem reset_requires_start_witness :
    (AlsaOutput.reset refLib pW).started = false ∧
    (AlsaOutput.reset refLib pW).pcmHandle.isSome = true ∧
    (AlsaOutput.currentState refLib (AlsaOutput.reset refLib pW)).1.queuedSamples
      = 0 :=
  reset_requires_start pW hwW rfl rfl (by decide)

/-- The `uninit` always leaves no handle, `initialised` false and `started`
cleared. -/
theorem uninit_fields {H : Type} (p : AlsaPrivate H) :
    (AlsaOutput.uninit p).pcmHandle = none ∧
    (AlsaOutput.uninit p).initialised = false ∧
    (AlsaOutput.uninit p).started = false := by
  unfold AlsaOutput.uninit AlsaPrivate.reset
  cases hp : p.pcmHandle <;> simp

/-- C9: `uninit` is idempotent and total: a second call is a no-op, the
result always has no open handle, `initialised()` false and the started
flag cleared, and calling it on a freshly constructed (never-initialised)
device leaves the state exactly as constructed. -/
theorem uninit_idempotent {H : Type} (p : AlsaPrivate H) :
    AlsaOutput.uninit (AlsaOutput.uninit p) = AlsaOutput.uninit p ∧
    (AlsaOutput.uninit p).pcmHandle = none ∧
    (AlsaOutput.uninit p).initialised = false ∧
    (AlsaOutput.uninit p).started = false ∧
    AlsaOutput.uninit (alsaPrivate0 H) = alsaPrivate0 H := by
  unfold AlsaOutput.uninit AlsaPrivate.reset alsaPrivate0
  cases hp : p.pcmHandle <;> simp

/-- The `initAlsa` either fails or leaves the freshly opened handle in place:
every exit after the successful open keeps the handle. -/
theorem initAlsa_fail_or_handle {H : Type} (lib : PcmLib H) (env : InitEnv H)
    (p : AlsaPrivate H) :
    (AlsaPrivate.initAlsa lib env p).1 = false ∨
    (AlsaPrivate.initAlsa lib env p).2.pcmHandle.isSome = true := by
  simp only [AlsaPrivate.initAlsa]
  repeat' split
  all_goals simp

/-- A successful `initAlsa` leaves the freshly opened handle in place. -/
theorem initAlsa_true_handle {H : Type} (lib : PcmLib H) (env : InitEnv H)
    (p : AlsaPrivate H) :
    (AlsaPrivate.initAlsa lib env p).1 = true →
    (AlsaPrivate.initAlsa lib env p).2.pcmHandle.isSome = true := by
  intro h
  rcases initAlsa_fail_or_handle lib env p with hf | hh
  · rw [h] at hf; exact Bool.noConfusion hf
  · exact hh

/-- C4: whenever `init` returns false — any failing step of the open /
negotiation / prepare chain — the device ends fully closed: no handle is
held and `initialised()` reports false. -/
theorem init_failure_closed {H : Type} (lib : PcmLib H) (env : InitEnv H)
    (format : AudioFormat) (p : AlsaPrivate H)
    (hfail : (AlsaOutput.init lib env format p).1 = false) :
    (AlsaOutput.init lib env format p).2.pcmHandle = none ∧
    AlsaOutput.initialised (AlsaOutput.init lib env format p).2 = false := by
  unfold AlsaOutput.init at hfail ⊢
  by_cases hr : (AlsaPrivate.initAlsa lib env { p with format := format }).1 = true
  · simp [hr] at hfail
  · rw [Bool.not_eq_true] at hr
    simp only [hr, Bool.false_eq_true, if_false]
    exact ⟨(uninit_fields _).1, (uninit_fields _).2.1⟩

/-- An init environment whose device open fails at once. -/
def envFailW : InitEnv RefHw :=
  { openResult := -1, openedHw := hwW, hwParamsAnyResult := 0, canPause := true,
    setAccessResult := 0, formatMask := fun _ => true, setFormatResult := 0,
    setRateResult := 0, setChannelsResult := 0, getBufferSizeMaxResult := 0,
    maxBufferSize := 8192, setBufferSizeNearResult := 0,
    negotiatedBufferSize := fun n => n, setPeriodSizeNearResult := 0,
    negotiatedPeriodSize := fun n => n, hwParamsResult := 0,
    swParamsCurrentResult := 0, getBoundaryResult := 0,
    setSilenceSizeResult := 0, setSilenceThresholdResult := 0,
    setStartThresholdResult := 0, setStopThresholdResult := 0,
    swParamsResult := 0 }

/-- A never-initialised device object over the reference sink. -/
def pFreshW : AlsaPrivate RefHw := alsaPrivate0 RefHw

/-- Witness for C4: a failing open leaves the device closed. -/
theorem init_failure_closed_witness :
    (AlsaOutput.init refLib envFailW fmtW pFreshW).2.pcmHandle = none ∧
    AlsaOutput.initialised (AlsaOutput.init refLib envFailW fmtW pFreshW).2
      = false :=
  init_failure_closed refLib envFailW fmtW pFreshW (by decide)

/-- The invariant of C10: a handle is held iff `initialised()` is true. -/
def handleMatchesInitialised {H : Type} (p : AlsaPrivate H) : Prop :=
  p.pcmHandle.isSome = AlsaOutput.initialised p

/-- The `init` establishes the invariant on both outcomes. -/
theorem inv_init {H : Type} (lib : PcmLib H) (env : InitEnv H)
    (format : AudioFormat) (p : AlsaPrivate H) :
    handleMatchesInitialised (AlsaOutput.init lib env format p).2 := by
  unfold handleMatchesInitialised AlsaOutput.initialised
  unfold AlsaOutput.init
  by_cases hr : (AlsaPrivate.initAlsa lib env { p with format := format }).1 = true
  · simp only [hr, if_pos]
    simpa using initAlsa_true_handle lib env _ hr
  · rw [Bool.not_eq_true] at hr
    simp only [hr, Bool.false_eq_true, if_false]
    rw [(uninit_fields _).1, (uninit_fields _).2.1]
    rfl

/-- The `uninit` establishes the invariant. -/
theorem inv_uninit {H : Type} (p : AlsaPrivate H) :
    handleMatchesInitialised (AlsaOutput.uninit p) := by
  unfold handleMatchesInitialised AlsaOutput.initialised
  rw [(uninit_fields p).1, (uninit_fields p).2.1]
  rfl

/-- The `reset` preserves the invariant. -/
theorem inv_reset {H : Type} (lib : PcmLib H) (p : AlsaPrivate H)
    (hinv : handleMatchesInitialised p) :
    handleMatchesInitialised (AlsaOutput.reset lib p) := by
  unfold handleMatchesInitialised AlsaOutput.initialised at hinv ⊢
  cases hp : p.pcmHandle with
  | some hw =>
      simp only [AlsaOutput.reset, hp]
      have h := recoverState_preserves lib
        ({ p with pcmHandle := some (lib.prepare (lib.drop hw).hw).hw, started := false })
      rw [h.2.2.2.2.2, h.2.1]
      simp_all
  | none =>
      simp only [AlsaOutput.reset, hp]
      have h := recoverState_preserves lib
        ({ p with pcmHandle := none, started := false })
      rw [h.2.2.2.2.2, h.2.1]
      simp_all

/-- The `start` preserves the invariant. -/
theorem inv_start {H : Type} (lib : PcmLib H) (p : AlsaPrivate H)
    (hinv : handleMatchesInitialised p) :
    handleMatchesInitialised (AlsaOutput.start lib p) := by
  unfold handleMatchesInitialised AlsaOutput.initialised at hinv ⊢
  cases hp : p.pcmHandle with
  | some hw => simp_all [AlsaOutput.start, hp]
  | none => simp_all [AlsaOutput.start, hp]

/-- The `write` preserves the invariant. -/
theorem inv_write {H : Type} (lib : PcmLib H) (p : AlsaPrivate H)
    (buffer : AudioBuffer) (hinv : handleMatchesInitialised p) :
    handleMatchesInitialised (AlsaOutput.write lib p buffer).p := by
  unfold handleMatchesInitialised AlsaOutput.initialised at hinv ⊢
  have h := recoverState_preserves lib p
  cases hp : p.pcmHandle with
  | none => simp_all [AlsaOutput.write, hp]
  | some h0 =>
      simp only [AlsaOutput.write, hp]
      split
      · rw [h.2.2.2.2.2, h.2.1, hp]
        simp_all
      · cases hpp : (p.recoverState lib).p.pcmHandle with
        | none =>
            have hcontra := h.2.2.2.2.2
            rw [hpp, hp] at hcontra
            simp at hcontra
        | some h1 =>
            dsimp only
            split <;> (dsimp only; rw [h.2.1]; simp_all)

/-- The `currentState` preserves the invariant. -/
theorem inv_currentState {H : Type} (lib : PcmLib H) (p : AlsaPrivate H)
    (hinv : handleMatchesInitialised p) :
    handleMatchesInitialised (AlsaOutput.currentState lib p).2 := by
  unfold handleMatchesInitialised AlsaOutput.initialised at hinv ⊢
  have h := recoverState_preserves lib p
  simp only [AlsaOutput.currentState]
  rw [h.2.2.2.2.2, h.2.1]
  exact hinv

/-- The `setPaused` preserves the invariant. -/
theorem inv_setPaused {H : Type} (lib : PcmLib H) (p : AlsaPrivate H)
    (pause : Bool) (hinv : handleMatchesInitialised p) :
    handleMatchesInitialised (AlsaOutput.setPaused lib p pause) := by
  unfold handleMatchesInitialised AlsaOutput.initialised at hinv ⊢
  have h := recoverState_preserves lib p
  have h2 := h.2.1
  have h6 := h.2.2.2.2.2
  by_cases hpz : (!p.pausable) = true
  · simp only [AlsaOutput.setPaused]
    rw [if_pos hpz]
    exact hinv
  · simp only [AlsaOutput.setPaused]
    rw [if_neg hpz]
    cases hpp : (p.recoverState lib).p.pcmHandle with
    | none =>
        dsimp only
        rw [h2]
        rw [hpp] at h6
        simp at h6
        simp_all
    | some h1 =>
        dsimp only
        rw [hpp] at h6
        simp at h6
        by_cases hc1 : lib.rawState h1 = PcmSt.running ∧ pause = true
        · rw [if_pos hc1]
          dsimp only
          rw [h2]
          simp_all
        · rw [if_neg hc1]
          by_cases hc2 : lib.rawState h1 = PcmSt.paused ∧ ¬pause = true
          · rw [if_pos hc2]
            dsimp only
            rw [h2]
            simp_all
          · rw [if_neg hc2]
            rw [h2]
            simp_all

/-- The `setVolume`, `setDevice` and `getAllDevices` preserve the invariant. -/
theorem inv_simple_ops {H : Type} (p : AlsaPrivate H) (v : ℚ) (d : String)
    (env : EnumEnv) (hinv : handleMatchesInitialised p) :
    handleMatchesInitialised (AlsaOutput.setVolume p v) ∧
    handleMatchesInitialised (AlsaOutput.setDevice p d) ∧
    handleMatchesInitialised (AlsaOutput.getAllDevices env p).2 := by
  unfold handleMatchesInitialised AlsaOutput.initialised at hinv ⊢
  refine ⟨hinv, ?_, hinv⟩
  unfold AlsaOutput.setDevice
  split <;> exact hinv

/-- C10: after any public operation the device handle is open iff
`initialised()` reports true, provided the invariant held before (it holds
for a freshly constructed device, is established by `init` on both
outcomes and by `uninit`, and is preserved by every other operation). -/
theorem handle_initialised_invariant {H : Type} (lib : PcmLib H)
    (env : InitEnv H) (format : AudioFormat) (p : AlsaPrivate H)
    (buffer : AudioBuffer) (pause : Bool) (v : ℚ) (d : String)
    (eenv : EnumEnv) (hinv : handleMatchesInitialised p) :
    handleMatchesInitialised (alsaPrivate0 H) ∧
    handleMatchesInitialised (AlsaOutput.init lib env format p).2 ∧
    handleMatchesInitialised (AlsaOutput.uninit p) ∧
    handleMatchesInitialised (AlsaOutput.reset lib p) ∧
    handleMatchesInitialised (AlsaOutput.start lib p) ∧
    handleMatchesInitialised (AlsaOutput.write lib p buffer).p ∧
    handleMatchesInitialised (AlsaOutput.currentState lib p).2 ∧
    handleMatchesInitialised (AlsaOutput.setPaused lib p pause) ∧
    handleMatchesInitialised (AlsaOutput.setVolume p v) ∧
    handleMatchesInitialised (AlsaOutput.setDevice p d) ∧
    handleMatchesInitialised (AlsaOutput.getAllDevices eenv p).2 :=
  ⟨rfl, inv_init lib env format p, inv_uninit p, inv_reset lib p hinv,
   inv_start lib p hinv, inv_write lib p buffer hinv,
   inv_currentState lib p hinv, inv_setPaused lib p pause hinv,
   (inv_simple_ops p v d eenv hinv).1, (inv_simple_ops p v d eenv hinv).2.1,
   (inv_simple_ops p v d eenv hinv).2.2⟩

/-- Witness for C10 at concrete inputs. -/
theorem handle_initialised_invariant_witness :
    handleMatchesInitialised (alsaPrivate0 RefHw) ∧
    handleMatchesInitialised (AlsaOutput.init refLib envFailW fmtW pW).2 ∧
    handleMatchesInitialised (AlsaOutput.uninit pW) ∧
    handleMatchesInitialised (AlsaOutput.reset refLib pW) ∧
    handleMatchesInitialised (AlsaOutput.start refLib pW) ∧
    handleMatchesInitialised (AlsaOutput.write refLib pW bufW).p ∧
    handleMatchesInitialised (AlsaOutput.currentState refLib pW).2 ∧
    handleMatchesInitialised (AlsaOutput.setPaused refLib pW true) ∧
    handleMatchesInitialised (AlsaOutput.setVolume pW 1) ∧
    handleMatchesInitialised (AlsaOutput.setDevice pW "front") ∧
    handleMatchesInitialised (AlsaOutput.getAllDevices
      { hintErr := false, hints := [], cards := [] } pW).2 :=
  handle_initialised_invariant refLib envFailW fmtW pW bufW true 1 "front"
    { hintErr := false, hints := [], cards := [] } rfl

/-- C8: `setVolume(v)` stores the gain, and a `write` performed while the
stored gain is `v` (and recovery succeeds, so a hardware write happens)
hands the hardware exactly the caller's buffer scaled by `v`, while the
caller-owned buffer comes back untouched — scaling happens only on the
local copy made inside `write`. -/
theorem setVolume_scales_write {H : Type} (lib : PcmLib H)
    (p : AlsaPrivate H) (v : ℚ) (buffer : AudioBuffer)
    (hvol : p.volume = v) (hrec : (p.recoverState lib).recovered = true) :
    (AlsaOutput.setVolume p v).volume = v ∧
    (AlsaOutput.write lib p buffer).sent =
      some (AudioBuffer.scale v buffer) ∧
    (AlsaOutput.write lib p buffer).callerBuf = buffer := by
  refine ⟨rfl, ?_, write_callerBuf lib p buffer⟩
  cases hp : p.pcmHandle with
  | none =>
      unfold AlsaPrivate.recoverState at hrec
      rw [hp] at hrec
      simp at hrec
  | some h0 =>
      have hrv := (recoverState_preserves lib p).1
      simp only [AlsaOutput.write, hp, hrec, Bool.not_true, Bool.false_eq_true,
        if_false]
      cases hpp : (p.recoverState lib).p.pcmHandle with
      | none =>
          have h6 := (recoverState_preserves lib p).2.2.2.2.2
          rw [hpp, hp] at h6
          simp at h6
      | some h1 =>
          dsimp only
          split <;> (dsimp only; rw [hrv, hvol])

/-- A concrete device object with gain one half. -/
def pW8 : AlsaPrivate RefHw :=
  { format := fmtW, initialised := true, pcmHandle := some hwW, volume := 1/2 }

/-- Witness for C8 at the concrete reference sink. -/
theorem setVolume_scales_write_witness :
    (AlsaOutput.setVolume pW8 (1/2)).volume = 1/2 ∧
    (AlsaOutput.write refLib pW8 bufW).sent =
      some (AudioBuffer.scale (1/2) bufW) ∧
    (AlsaOutput.write refLib pW8 bufW).callerBuf = bufW :=
  setVolume_scales_write refLib pW8 (1/2) bufW rfl (by decide)

/-- The hardware enumeration only appends: running it on an accumulator is
the accumulator followed by running it on the empty vector. -/
theorem getHardwareDevices_append (cards : List CardInfo) :
    ∀ devices, getHardwareDevices cards devices =
      devices ++ getHardwareDevices cards [] := by
  induction cards with
  | nil => intro d; simp [getHardwareDevices]
  | cons c rest ih =>
      intro d
      by_cases h1 : (!c.openOk) = true
      · simp only [getHardwareDevices]
        rw [if_pos h1, if_pos h1]
        exact ih d
      · by_cases h2 : (!c.infoOk) = true
        · simp only [getHardwareDevices]
          rw [if_neg h1, if_pos h2, if_neg h1, if_pos h2]
          exact ih d
        · simp only [getHardwareDevices]
          rw [if_neg h1, if_neg h2, if_neg h1, if_neg h2]
          rw [ih (d ++ cardDevices c), ih ([] ++ cardDevices c)]
          simp [List.append_assoc]

/-- Once the accumulated vector starts with a device named "default", the
hint loop keeps a "default"-named device at the front: front insertions
are themselves named "default" and everything else is appended. -/
theorem pcmLoop_head_stable (l : List Hint) :
    ∀ (acc : List OutputDevice) (d : OutputDevice),
      acc.head? = some d → d.name = "default" →
      ∃ d', (pcmLoop l acc).head? = some d' ∧ d'.name = "default" := by
  induction l with
  | nil => intro acc d h hd; exact ⟨d, h, hd⟩
  | cons h t ih =>
      intro acc d hh hd
      cases acc with
      | nil => simp at hh
      | cons a as =>
          have ha : a = d := by simpa using hh
          rcases hn : h.name with _ | nm
          · simp only [pcmLoop, hn]
            exact ih _ _ hh hd
          · rcases hdsc : h.desc with _ | ds
            · simp only [pcmLoop, hn, hdsc]
              exact ih _ _ hh hd
            · by_cases hskip : ioidSkipped h = true
              · simp only [pcmLoop, hn, hdsc]
                rw [if_pos hskip]
                exact ih _ _ hh hd
              · simp only [pcmLoop, hn, hdsc]
                rw [if_neg hskip]
                by_cases hnm : nm = "default"
                · rw [if_pos hnm]
                  exact ih _ _ rfl hnm
                · rw [if_neg hnm]
                  exact ih _ _ (by simp [ha]) hd

/-- If some accepted hint is literally named "default", the hint loop ends
with a "default"-named device at the front of the vector. -/
theorem pcmLoop_default_first (l : List Hint) :
    ∀ acc, (∃ g ∈ l, g.name = some "default" ∧ g.desc.isSome = true ∧
        ioidSkipped g = false) →
      ∃ d', (pcmLoop l acc).head? = some d' ∧ d'.name = "default" := by
  induction l with
  | nil =>
      intro acc hex
      obtain ⟨g, hg, _⟩ := hex
      simp at hg
  | cons h t ih =>
      intro acc hex
      obtain ⟨g, hg, hgname, hgdesc, hgio⟩ := hex
      rcases List.mem_cons.mp hg with heq | hgt
      · subst heq
        obtain ⟨ds, hds⟩ := Option.isSome_iff_exists.mp hgdesc
        simp only [pcmLoop, hgname, hds]
        rw [if_neg (by simp [hgio])]
        rw [if_pos (by trivial)]
        exact pcmLoop_head_stable t _ _ rfl rfl
      · have hex' : ∃ g ∈ t, g.name = some "default" ∧ g.desc.isSome = true ∧
            (match g.ioid with
              | some io => io ≠ "Output" | none => false : Bool) = false :=
          ⟨g, hgt, hgname, hgdesc, hgio⟩
        rcases hn : h.name with _ | nm
        · simp only [pcmLoop, hn]
          exact ih _ hex'
        · rcases hdsc : h.desc with _ | ds
          · simp only [pcmLoop, hn, hdsc]
            exact ih _ hex'
          · by_cases hskip : ioidSkipped h = true
            · simp only [pcmLoop, hn, hdsc]
              rw [if_pos hskip]
              exact ih _ hex'
            · simp only [pcmLoop, hn, hdsc]
              rw [if_neg hskip]
              by_cases hnm : nm = "default"
              · rw [if_pos hnm]
                exact ih _ hex'
              · rw [if_neg hnm]
                exact ih _ hex'

/-- Every device produced by the hardware enumeration carries the
synthesised `hw:<card>,<device>` name and card/device-metadata
description of the card entry it came from. -/
theorem getHardwareDevices_mem (cards : List CardInfo) :
    ∀ d, d ∈ getHardwareDevices cards [] →
      ∃ c ∈ cards, ∃ dv ∈ c.devs, dv.infoOk = true ∧
        d.name = hwName c.card dv.dev ∧
        d.desc = hwDesc c.card dv.dev c.cardName dv.pcmName := by
  induction cards with
  | nil => intro d hd; simp [getHardwareDevices] at hd
  | cons c rest ih =>
      intro d hd
      by_cases h1 : (!c.openOk) = true
      · simp only [getHardwareDevices] at hd
        rw [if_pos h1] at hd
        obtain ⟨c', hc', rest'⟩ := ih d hd
        exact ⟨c', List.mem_cons_of_mem c hc', rest'⟩
      · by_cases h2 : (!c.infoOk) = true
        · simp only [getHardwareDevices] at hd
          rw [if_neg h1, if_pos h2] at hd
          obtain ⟨c', hc', rest'⟩ := ih d hd
          exact ⟨c', List.mem_cons_of_mem c hc', rest'⟩
        · simp only [getHardwareDevices] at hd
          rw [if_neg h1, if_neg h2, List.nil_append,
            getHardwareDevices_append rest (cardDevices c)] at hd
          rcases List.mem_append.mp hd with hmem | hmem
          · simp only [cardDevices] at hmem
            obtain ⟨dv, hdv, hsome⟩ := List.mem_filterMap.mp hmem
            by_cases hio : dv.infoOk = true
            · rw [if_pos hio] at hsome
              obtain rfl := Option.some.inj hsome
              exact ⟨c, List.mem_cons_self c rest, dv, hdv, hio, rfl, rfl⟩
            · rw [if_neg hio] at hsome
              exact Option.noConfusion hsome
          · obtain ⟨c', hc', rest'⟩ := ih d hmem
            exact ⟨c', List.mem_cons_of_mem c hc', rest'⟩

/-- C6 (amended): `getAllDevices` is the symbolic/software hint list (in
hint order, without deduplication) followed by the hardware card/device
entries; any accepted hint literally named "default" ends up first; every
hardware entry has the `hw:<card>,<device>` name with a description built
from card and device metadata; and the enumeration neither reads nor
changes the device state. -/
theorem getAllDevices_merge {H : Type} (env : EnumEnv) (p : AlsaPrivate H) :
    (AlsaOutput.getAllDevices env p).1 =
      getPcmDevices env [] ++ getHardwareDevices env.cards [] ∧
    (AlsaOutput.getAllDevices env p).2 = p ∧
    ((∃ g ∈ env.hints, g.name = some "default" ∧ g.desc.isSome = true ∧
        ioidSkipped g = false) →
      env.hintErr = false →
      ∃ d', (AlsaOutput.getAllDevices env p).1.head? = some d' ∧
        d'.name = "default") ∧
    (∀ d ∈ getHardwareDevices env.cards [], ∃ c ∈ env.cards,
      ∃ dv ∈ c.devs, dv.infoOk = true ∧ d.name = hwName c.card dv.dev ∧
        d.desc = hwDesc c.card dv.dev c.cardName dv.pcmName) := by
  have hsplit : (AlsaOutput.getAllDevices env p).1 =
      getPcmDevices env [] ++ getHardwareDevices env.cards [] :=
    getHardwareDevices_append env.cards (getPcmDevices env [])
  refine ⟨hsplit, rfl, ?_, getHardwareDevices_mem env.cards⟩
  intro hex herr
  have hpcm : getPcmDevices env [] = pcmLoop env.hints [] := by
    simp [getPcmDevices, herr]
  obtain ⟨d', hh, hdname⟩ := pcmLoop_default_first env.hints [] hex
  refine ⟨d', ?_, hdname⟩
  rw [hsplit, hpcm]
  cases hA : pcmLoop env.hints [] with
  | nil => rw [hA] at hh; simp at hh
  | cons a as =>
      rw [hA] at hh
      simp at hh ⊢
      exact hh

/-- An enumeration environment whose hint list repeats one device. -/
def cexEnv : EnumEnv :=
  { hintErr := false,
    hints := [ { name := some "foo", desc := some "d", ioid := none },
               { name := some "foo", desc := some "d", ioid := none } ],
    cards := [] }

/-- A device object only used as the receiver of const enumerations. -/
def cexPriv : AlsaPrivate Unit := { format := fmtW }

/-- C6 counterexample: with a repeated hint, `getAllDevices` returns the
same device twice — the symbolic list is not deduplicated. -/
theorem getAllDevices_dedup_cex :
    (AlsaOutput.getAllDevices cexEnv cexPriv).1 =
      [ { name := "foo", desc := "foo - d" },
        { name := "foo", desc := "foo - d" } ] ∧
    ¬ (AlsaOutput.getAllDevices cexEnv cexPriv).1.Nodup := by
  constructor <;> decide

/-- An enumeration environment holding one accepted "default" hint. -/
def defEnv : EnumEnv :=
  { hintErr := false,
    hints := [ { name := some "default", desc := some "Default sink",
                 ioid := none } ],
    cards := [] }

/-- Witness for C6 at a concrete environment with a "default" hint. -/
theorem getAllDevices_merge_witness :
    ∃ d', (AlsaOutput.getAllDevices defEnv cexPriv).1.head? = some d' ∧
      d'.name = "default" :=
  (getAllDevices_merge defEnv cexPriv).2.2.1
    ⟨{ name := some "default", desc := some "Default sink", ioid := none },
      by simp [defEnv], rfl, rfl, rfl⟩ rfl
